import Mathlib

/-!
Verification of the LI-Scraper dashboard's list-population polling workflow
and API client, shallowly embedded from `src/frontend/app/lists/page.tsx`
and `src/frontend/lib/api.ts`.

Timestamps are modelled as integer milliseconds since the epoch.  The
source computes `diffMinutes = (now - createdAt) / (1000 * 60)` and tests
`diffMinutes < 10`; over the reals this is equivalent to
`now - createdAt < 600000`, which is how we state it on `Int`.
-/

namespace LIScraper

/-- Embedding of the `List` record of `src/frontend/lib/api.ts` (lines 56-63).
`profile_count` and `count` are optional there (`profile_count?: number`,
`count?: number`); `created_at` is declared as a required string but the page
code guards for its absence (`if (list.created_at)`), so we keep it optional
too, parsed to epoch milliseconds.  `none` models an absent field. -/
structure ListRec where
  id : String
  name : String
  profile_count : Option Int
  count : Option Int
  created_at : Option Int
deriving Repr, DecidableEq

/-- The 10-minute staleness window of `isListProcessing`, in milliseconds. -/
def stalenessWindowMs : Int := 600000

/-- Embedding of `isListProcessing` (`src/frontend/app/lists/page.tsx` lines
77-92): returns `false` when `list.profile_count !== 0` (in JavaScript an
absent field is `undefined`, and `undefined !== 0`), otherwise, when
`created_at` is present, tests whether the list was created strictly less
than 10 minutes before `now`, and otherwise returns `false`. -/
def isListProcessing (now : Int) (l : ListRec) : Bool :=
  if l.profile_count ≠ some 0 then
    false
  else
    match l.created_at with
    | some t => decide (now - t < stalenessWindowMs)
    | none => false

/-- Ids of the lists currently classified processing, as computed at the top
of the polling effect (`lists.filter(isListProcessing).map(l => l.id)`,
lines 96). -/
def processingIds (now : Int) (ls : List ListRec) : List String :=
  (ls.filter (fun l => isListProcessing now l)).map (fun l => l.id)

end LIScraper

namespace LIScraper

/-! API client (`src/frontend/lib/api.ts`). -/

/-- Result of `response.json()` on an error body: the client only ever reads
the `detail` field, so the parsed body is modelled by that field alone.
`detail := none` is a JSON object without a `detail` key. -/
structure ErrorBody where
  detail : Option String
deriving Repr, DecidableEq

/-- An HTTP response as `apiRequest` observes it: `ok`, `status`,
`statusText`, and the outcome of `response.json()` on the body (`none` when
parsing rejects). -/
structure HttpResponse where
  ok : Bool
  status : Nat
  statusText : String
  jsonBody : Option ErrorBody
deriving Repr, DecidableEq

/-- The template-literal fallback `HTTP error! status: X` of api.ts line 33. -/
def statusFallbackMsg (status : Nat) : String :=
  "HTTP error! status: " ++ toString status

/-- Message of the error thrown by `apiRequest` for a non-ok response
(api.ts lines 31-34): `response.json()` is awaited with
`.catch(() => ({ detail: response.statusText }))`, then
`error.detail || fallback` is thrown — where `||` takes the fallback when
`detail` is `undefined` (absent) or the empty string (JavaScript falsiness). -/
def errorMessage (r : HttpResponse) : String :=
  let d : Option String :=
    match r.jsonBody with
    | some b => b.detail
    | none => some r.statusText
  match d with
  | some s => if s = "" then statusFallbackMsg r.status else s
  | none => statusFallbackMsg r.status

/-- Embedding of the response handling of `apiRequest`: an ok response
yields the parsed body, a non-ok response raises a single error with
`errorMessage`. -/
def apiRequest (r : HttpResponse) : Except String (Option ErrorBody) :=
  if r.ok then Except.ok r.jsonBody else Except.error (errorMessage r)

/-- Header assignment `hs[k] = v` on an association list: later assignment
wins, as for a JavaScript record field. -/
def setHeader (hs : List (String × String)) (k v : String) :
    List (String × String) :=
  if hs.any (fun p => p.1 = k) then
    hs.map (fun p => if p.1 = k then (k, v) else p)
  else
    hs ++ [(k, v)]

/-- Headers built by `apiRequest` (api.ts lines 13-20): start from
`Content-Type: application/json`, spread in `options.headers`, then assign
`X-API-KEY` when `API_KEY` is truthy (a non-empty string). -/
def requestHeaders (apiKey : String) (optHeaders : List (String × String)) :
    List (String × String) :=
  let hs := optHeaders.foldl (fun acc p => setHeader acc p.1 p.2)
    [("Content-Type", "application/json")]
  if apiKey = "" then hs else setHeader hs "X-API-KEY" apiKey

/-- Lookup of a header value by name. -/
def getHeader (hs : List (String × String)) (k : String) : Option String :=
  match hs.find? (fun p => p.1 = k) with
  | some p => some p.2
  | none => none

/-- The operations exposed by the `api` object (api.ts lines 81-140),
one constructor per method. -/
inductive ApiOp where
  | health
  | getLists
  | getList
  | getListProspects
  | updateList
  | deleteList
  | populateList
  | sendCampaign
  | verifyConnections
  | getSenders
  | toggleSender
  | updateSender
  | createSender
deriving Repr, DecidableEq

/-- The `headers` field of the `RequestInit` each `api` method passes to
`apiRequest`: no method of the `api` object supplies custom headers. -/
def opHeaders : ApiOp → List (String × String) :=
  fun _ => []

/-! Polling workflow (`src/frontend/app/lists/page.tsx` lines 95-129).

The effect body closes over `processingListIds` (computed once when the
effect runs), a mutable `isPolling` flag, and the interval handle.  We model
the view-relevant state explicitly and split a poll tick into the launch of
the fetch (`tickStart`, everything before the `await`) and the handling of
its response (`resolveFetch`, everything after the `await`), so that a
response that is still in flight at teardown time can be resolved after
teardown, exactly as the event loop allows. -/

/-- State of the lists view while the polling effect is alive. -/
structure PollState where
  /-- The `lists` React state the view renders from. -/
  lists : List ListRec
  /-- The closure-captured `isPolling` flag of the effect. -/
  isPolling : Bool
  /-- Whether the `setInterval` timer exists and has not been cleared. -/
  timerActive : Bool
  /-- The closure-captured `processingListIds`, fixed when the effect ran. -/
  pids : List String
deriving Repr, DecidableEq

/-- Running the polling effect (lines 95-103): compute `processingListIds`
from the current lists; when it is empty return without creating a timer,
otherwise set `isPolling = true` and acquire the interval timer. -/
def setupPoll (now : Int) (ls : List ListRec) : PollState :=
  let pids := processingIds now ls
  if pids.isEmpty then
    { lists := ls, isPolling := false, timerActive := false, pids := pids }
  else
    { lists := ls, isPolling := true, timerActive := true, pids := pids }

/-- Start of an interval tick (lines 103-107): a tick only fires while the
timer exists; the callback returns immediately when `!isPolling`, otherwise
it launches `api.getLists()`.  The second component is the launched fetch's
captured `processingListIds` (`none` when no fetch was launched). -/
def tickStart (s : PollState) : PollState × Option (List String) :=
  if s.timerActive && s.isPolling then (s, some s.pids) else (s, none)

/-- The `stillProcessing` test of lines 109-111 applied to a fetched
collection: some fetched list is among the tracked ids and still classified
processing. -/
def stillProcessing (now : Int) (pids : List String)
    (fetched : List ListRec) : Bool :=
  fetched.any (fun l => pids.contains l.id && isListProcessing now l)

/-- Continuation after `await api.getLists()` resolves (lines 107-122):
on a rejected fetch (`none`) the catch block only logs; on a resolved fetch,
when no tracked list is still processing the code calls
`setLists(updatedLists)` and sets `isPolling = false`, otherwise it does
nothing.  Note the source re-checks neither `isPolling` nor the timer here:
the only `isPolling` check sits before the `await`, in `tickStart`. -/
def resolveFetch (now : Int) (pids : List String)
    (fetched : Option (List ListRec)) (s : PollState) : PollState :=
  match fetched with
  | none => s
  | some updated =>
      if stillProcessing now pids updated then s
      else { s with lists := updated, isPolling := false }

/-- A whole poll tick in which the fetch settles before the next event:
`tickStart` followed, when a fetch was launched, by `resolveFetch` on its
outcome (`none` models a rejected request). -/
def pollTick (now : Int) (fetched : Option (List ListRec)) (s : PollState) :
    PollState :=
  match tickStart s with
  | (s', none) => s'
  | (s', some pids) => resolveFetch now pids fetched s'

/-- Effect cleanup (lines 125-128): set `isPolling = false` and clear the
interval. -/
def teardown (s : PollState) : PollState :=
  { s with isPolling := false, timerActive := false }

/-! Mutation handlers of the lists page (`src/frontend/app/lists/page.tsx`
lines 147-278).  Each handler is modelled as a function from the page state
and the outcome of the awaited API call (plus, on the success path, the
outcome of the follow-up `fetchLists`) to the new page state, the toasts
shown, and the API calls issued — the call list makes "no retry" visible. -/

/-- Embedding of `String.prototype.trim`: drop leading and trailing
whitespace characters. -/
def jsTrim (s : String) : String :=
  String.mk
    (((s.data.dropWhile Char.isWhitespace).reverse.dropWhile
        Char.isWhitespace).reverse)

/-- A toast notification as raised by `useToast`. -/
structure Toast where
  title : String
  description : String
  destructive : Bool
deriving Repr, DecidableEq

/-- Destructive-variant error toast. -/
def errToast (msg : String) : Toast :=
  { title := "Error", description := msg, destructive := true }

/-- Success toast. -/
def okToast (msg : String) : Toast :=
  { title := "Success", description := msg, destructive := false }

/-- Request body of `api.populateList` as built by `handleGenerateList`
(lines 162-168). -/
structure PopulateReq where
  search_url : String
  profile_limit : Int
  collect_only : Bool
  send_note : Bool
  note_text : String
deriving Repr, DecidableEq

/-- Backend calls a handler can issue. -/
inductive ApiCall where
  | populate (req : PopulateReq)
  | fetchListsCall
  | updateListCall (id : String) (name : String)
  | deleteListCall (id : String)
deriving Repr, DecidableEq

/-- The component state of `ListsPage` relevant to the mutation handlers. -/
structure PageState where
  lists : List ListRec
  isModalOpen : Bool
  isLoading : Bool
  searchUrl : String
  profileLimit : Int
  collectOnly : Bool
  sendNote : Bool
  noteText : String
  renameDialogOpen : Bool
  listToRename : Option ListRec
  newListName : String
  isRenaming : Bool
  deleteDialogOpen : Bool
  listToDelete : Option ListRec
  isDeleting : Bool
deriving Repr, DecidableEq

/-- Embedding of `handleGenerateList` (lines 147-211).  `outcome` is the
settled result of `await api.populateList(...)`; `refetch` the result of the
follow-up `fetchLists()` on the success path.  Returns the new state, the
toasts raised, and the API calls issued. -/
def handleGenerateList (s : PageState) (outcome : Except String Unit)
    (refetch : Except String (List ListRec)) :
    PageState × List Toast × List ApiCall :=
  if (jsTrim s.searchUrl) = "" then
    (s, [errToast "Please enter a LinkedIn search URL"], [])
  else
    let req : PopulateReq :=
      { search_url := s.searchUrl, profile_limit := s.profileLimit,
        collect_only := s.collectOnly, send_note := s.sendNote,
        note_text := s.noteText }
    match outcome with
    | Except.error msg =>
        ({ s with isLoading := false }, [errToast msg], [ApiCall.populate req])
    | Except.ok _ =>
        let s1 := { s with isModalOpen := false, searchUrl := "",
                           profileLimit := 20, collectOnly := false,
                           sendNote := false, noteText := "",
                           isLoading := false }
        match refetch with
        | Except.ok ls =>
            ({ s1 with lists := ls },
             [okToast "List generation started successfully"],
             [ApiCall.populate req, ApiCall.fetchListsCall])
        | Except.error m =>
            (s1,
             [okToast "List generation started successfully", errToast m],
             [ApiCall.populate req, ApiCall.fetchListsCall])

/-- Embedding of `handleRename` (lines 219-249). -/
def handleRename (s : PageState) (outcome : Except String Unit)
    (refetch : Except String (List ListRec)) :
    PageState × List Toast × List ApiCall :=
  match s.listToRename with
  | none => (s, [errToast "Please enter a list name"], [])
  | some l =>
      if (jsTrim s.newListName) = "" then
        (s, [errToast "Please enter a list name"], [])
      else
        match outcome with
        | Except.error msg =>
            ({ s with isRenaming := false }, [errToast msg],
             [ApiCall.updateListCall l.id (jsTrim s.newListName)])
        | Except.ok _ =>
            let s1 := { s with renameDialogOpen := false,
                               listToRename := none, newListName := "",
                               isRenaming := false }
            match refetch with
            | Except.ok ls =>
                ({ s1 with lists := ls },
                 [okToast "List renamed successfully"],
                 [ApiCall.updateListCall l.id (jsTrim s.newListName),
                  ApiCall.fetchListsCall])
            | Except.error m =>
                (s1, [okToast "List renamed successfully", errToast m],
                 [ApiCall.updateListCall l.id (jsTrim s.newListName),
                  ApiCall.fetchListsCall])

/-- Embedding of `handleDelete` (lines 256-278). -/
def handleDelete (s : PageState) (outcome : Except String Unit)
    (refetch : Except String (List ListRec)) :
    PageState × List Toast × List ApiCall :=
  match s.listToDelete with
  | none => (s, [], [])
  | some l =>
      match outcome with
      | Except.error msg =>
          ({ s with isDeleting := false }, [errToast msg],
           [ApiCall.deleteListCall l.id])
      | Except.ok _ =>
          let s1 := { s with deleteDialogOpen := false, listToDelete := none,
                             isDeleting := false }
          match refetch with
          | Except.ok ls =>
              ({ s1 with lists := ls }, [okToast "List deleted successfully"],
               [ApiCall.deleteListCall l.id, ApiCall.fetchListsCall])
          | Except.error m =>
              (s1, [okToast "List deleted successfully", errToast m],
               [ApiCall.deleteListCall l.id, ApiCall.fetchListsCall])

/-! Concrete sample values used to instantiate the theorems below. -/

/-- A just-created list: zero profiles, `created_at` at epoch 0. -/
def freshList : ListRec :=
  { id := "l1", name := "Engineers", profile_count := some 0, count := none,
    created_at := some 0 }

/-- The same list as fetched after its population job finished. -/
def settledList : ListRec :=
  { id := "l1", name := "Engineers", profile_count := some 25,
    count := some 25, created_at := some 0 }

/-- A fetched list record whose size is reported only in `count`, with no
`profile_count` field. -/
def countOnlyList : ListRec :=
  { id := "l2", name := "CountOnly", profile_count := none, count := some 7,
    created_at := some 0 }

/-- A list record with zero profiles but no `created_at` field. -/
def noCreatedList : ListRec :=
  { id := "l3", name := "NoCreated", profile_count := some 0, count := none,
    created_at := none }

/-- A 500 response whose body parses to a JSON object without a `detail`
field. -/
def respNoDetail : HttpResponse :=
  { ok := false, status := 500, statusText := "Internal Server Error",
    jsonBody := some { detail := none } }

/-- Like `respNoDetail` but with a different status text. -/
def respNoDetail2 : HttpResponse :=
  { ok := false, status := 500, statusText := "Bad Gateway",
    jsonBody := some { detail := none } }

/-- A 429 response carrying `{"detail": "rate limited"}`. -/
def respRateLimited : HttpResponse :=
  { ok := false, status := 429, statusText := "Too Many Requests",
    jsonBody := some { detail := some "rate limited" } }

/-- CLAIM C1.  The processing classifier returns true for a List iff its known
`profile_count` equals zero and its creation timestamp is strictly within 10
minutes (600000 ms) of the current time; in particular at an age of exactly
10 minutes or beyond it returns false, and for a non-zero `profile_count` it
returns false regardless of timestamp. -/
theorem processing_iff (now : Int) (l : ListRec) :
    isListProcessing now l = true ↔
      l.profile_count = some 0 ∧
        ∃ t, l.created_at = some t ∧ now - t < stalenessWindowMs := by
  unfold isListProcessing
  by_cases hpc : l.profile_count = some 0
  · simp only [hpc, ne_eq, not_true_eq_false, if_false]
    cases hca : l.created_at with
    | none => simp
    | some t =>
      simp [hca]
  · simp [hpc]

/-- CLAIM C10.  A fetched List lacking the `profile_count` field entirely, or
lacking the `created_at` field, is never classified processing; and the
classifier ignores the alternative `count` field altogether. -/
theorem missing_fields_not_processing (now : Int) (l : ListRec) :
    (l.profile_count = none → isListProcessing now l = false) ∧
    (l.created_at = none → isListProcessing now l = false) ∧
    (∀ c, isListProcessing now { l with count := c } = isListProcessing now l) := by
  refine ⟨fun h => ?_, fun h => ?_, fun c => ?_⟩
  · simp [isListProcessing, h]
  · unfold isListProcessing
    by_cases hpc : l.profile_count = some 0 <;> simp [hpc, h]
  · rfl

/-- Witness for CLAIM C10: a zero-profile list whose size is reported only in
`count`, and a zero-profile list without `created_at`, both classified not
processing at time 0 (when both would be inside the 10-minute window had the
missing field been present). -/
theorem missing_fields_not_processing_witness :
    isListProcessing 0 countOnlyList = false ∧
      isListProcessing 0 noCreatedList = false :=
  ⟨(missing_fields_not_processing 0 countOnlyList).1 rfl,
   (missing_fields_not_processing 0 noCreatedList).2.1 rfl⟩

/-- Counterexample to CLAIM C5 as stated: for a non-2xx response whose body
is a JSON object without a `detail` field, the raised message is
`HTTP error! status: 500`, built from the numeric status code — it is not
the status text, and two such responses differing only in status text raise
the identical message, so the message is not derived from the status text. -/
theorem error_message_not_from_status_text :
    apiRequest respNoDetail = Except.error "HTTP error! status: 500" ∧
    respNoDetail.ok = false ∧
    respNoDetail.statusText = "Internal Server Error" ∧
    errorMessage respNoDetail ≠ respNoDetail.statusText ∧
    respNoDetail.statusText ≠ respNoDetail2.statusText ∧
    errorMessage respNoDetail = errorMessage respNoDetail2 := by
  refine ⟨rfl, rfl, rfl, by decide, by decide, rfl⟩

/-- CLAIM C5, amended.  For every non-2xx response the client raises a single
error; its message equals the body's `detail` field when that field is
present and non-empty; when the body fails to parse as JSON, the message is
the HTTP status text when that is non-empty; and in the remaining cases
(body parses without a non-empty `detail`, or unparsable body with empty
status text) the message is `HTTP error! status: <code>` derived from the
numeric status code. -/
theorem error_message_spec (r : HttpResponse) (h : r.ok = false) :
    apiRequest r = Except.error (errorMessage r) ∧
    (∀ b d, r.jsonBody = some b → b.detail = some d → d ≠ "" →
      errorMessage r = d) ∧
    (r.jsonBody = none → r.statusText ≠ "" →
      errorMessage r = r.statusText) ∧
    (∀ b, r.jsonBody = some b → b.detail = none →
      errorMessage r = statusFallbackMsg r.status) ∧
    (∀ b, r.jsonBody = some b → b.detail = some "" →
      errorMessage r = statusFallbackMsg r.status) ∧
    (r.jsonBody = none → r.statusText = "" →
      errorMessage r = statusFallbackMsg r.status) := by
  refine ⟨by simp [apiRequest, h], ?_, ?_, ?_, ?_, ?_⟩
  · intro b d hb hd hne
    simp [errorMessage, hb, hd, hne]
  · intro hb hne
    simp [errorMessage, hb, hne]
  · intro b hb hd
    simp [errorMessage, hb, hd]
  · intro b hb hd
    simp [errorMessage, hb, hd]
  · intro hb hne
    simp [errorMessage, hb, hne]

/-- Witness for CLAIM C5 (amended), realising the spec's scenario: a non-2xx
response with body `{"detail": "rate limited"}` raises exactly the message
`rate limited`. -/
theorem error_message_spec_witness :
    apiRequest respRateLimited = Except.error (errorMessage respRateLimited) ∧
      errorMessage respRateLimited = "rate limited" :=
  ⟨(error_message_spec respRateLimited rfl).1,
   (error_message_spec respRateLimited rfl).2.1 { detail := some "rate limited" }
     "rate limited" rfl rfl (by decide)⟩

/-- CLAIM C9.  Every request issued through the `api` object carries the
header `Content-Type: application/json`, and carries `X-API-KEY` exactly
when the configured key is non-empty (the header is absent otherwise). -/
theorem request_headers_spec (key : String) (op : ApiOp) :
    getHeader (requestHeaders key (opHeaders op)) "Content-Type" =
      some "application/json" ∧
    getHeader (requestHeaders key (opHeaders op)) "X-API-KEY" =
      (if key = "" then none else some key) := by
  by_cases hk : key = "" <;>
    simp [requestHeaders, opHeaders, setHeader, getHeader, hk, List.find?]

/-- CLAIM C7.  When zero lists in the collection are classified processing,
running the polling effect acquires no timer, leaves the view state alone,
and no tick ever launches a fetch. -/
theorem no_processing_no_timer (now : Int) (ls : List ListRec)
    (h : processingIds now ls = []) :
    (setupPoll now ls).timerActive = false ∧
    (setupPoll now ls).lists = ls ∧
    (tickStart (setupPoll now ls)).2 = none := by
  refine ⟨?_, ?_, ?_⟩ <;> simp [setupPoll, tickStart, h]

/-- Witness for CLAIM C7: a collection holding one settled list (non-zero
`profile_count`) has no processing lists and acquires no timer. -/
theorem no_processing_no_timer_witness :
    processingIds 0 [settledList] = [] ∧
      (setupPoll 0 [settledList]).timerActive = false :=
  ⟨by decide, (no_processing_no_timer 0 [settledList] (by decide)).1⟩

/-- CLAIM C4.  A poll tick in which some tracked list is still classified
processing leaves the whole poll state — in particular the view's list
state — unchanged: the intermediate fetched data is not applied. -/
theorem still_processing_tick_frame (now : Int) (s : PollState)
    (f : List ListRec) (h : stillProcessing now s.pids f = true) :
    pollTick now (some f) s = s := by
  unfold pollTick tickStart resolveFetch
  by_cases ht : s.timerActive && s.isPolling <;> simp [ht, h]

/-- Witness for CLAIM C4: one freshly created list is polled at 5 seconds;
the fetch returns it still at zero profiles, so it is still processing and
the tick changes nothing. -/
theorem still_processing_tick_frame_witness :
    stillProcessing 5000 (setupPoll 0 [freshList]).pids [freshList] = true ∧
      pollTick 5000 (some [freshList]) (setupPoll 0 [freshList]) =
        setupPoll 0 [freshList] :=
  ⟨by decide,
   still_processing_tick_frame 5000 (setupPoll 0 [freshList]) [freshList]
     (by decide)⟩

/-- CLAIM C6.  A poll tick whose fetch fails is a no-op on the poll state:
the view state, the `isPolling` flag and the timer are all unchanged, and
any subsequent tick behaves exactly as it would have without the failure. -/
theorem failed_tick_noop (now : Int) (s : PollState) :
    pollTick now none s = s ∧
    (pollTick now none s).isPolling = s.isPolling ∧
    (pollTick now none s).timerActive = s.timerActive ∧
    (∀ now2 g, pollTick now2 g (pollTick now none s) = pollTick now2 g s) := by
  have hbase : pollTick now none s = s := by
    unfold pollTick tickStart resolveFetch
    by_cases ht : s.timerActive && s.isPolling <;> simp [ht]
  exact ⟨hbase, by rw [hbase], by rw [hbase], fun now2 g => by rw [hbase]⟩

/-- CLAIM C3.  At a poll tick where the loop is live and none of the tracked
lists is still classified processing, the view's list collection is replaced
wholesale with the freshly fetched data and `isPolling` drops to false, so
every subsequent tick of the loop is an identity on the state: the
replacement happens exactly once. -/
theorem settle_tick (now : Int) (s : PollState) (f : List ListRec)
    (hta : s.timerActive = true) (hp : s.isPolling = true)
    (h : stillProcessing now s.pids f = false) :
    (pollTick now (some f) s).lists = f ∧
    (pollTick now (some f) s).isPolling = false ∧
    (∀ now2 g, pollTick now2 g (pollTick now (some f) s) =
      pollTick now (some f) s) := by
  have hstep : pollTick now (some f) s =
      { s with lists := f, isPolling := false } := by
    unfold pollTick tickStart resolveFetch
    simp [hta, hp, h]
  refine ⟨by rw [hstep], by rw [hstep], fun now2 g => ?_⟩
  rw [hstep]
  unfold pollTick tickStart
  simp

/-- Witness for CLAIM C3: one freshly created list is polled; the fetch
returns it with 25 profiles, so nothing tracked is still processing, the
collection becomes the fetched one, and a further tick changes nothing. -/
theorem settle_tick_witness :
    (pollTick 5000 (some [settledList]) (setupPoll 0 [freshList])).lists =
        [settledList] ∧
      (pollTick 5000 (some [settledList]) (setupPoll 0 [freshList])).isPolling =
        false :=
  ⟨(settle_tick 5000 (setupPoll 0 [freshList]) [settledList] (by decide)
      (by decide) (by decide)).1,
   (settle_tick 5000 (setupPoll 0 [freshList]) [settledList] (by decide)
      (by decide) (by decide)).2.1⟩

/-- CLAIM C2 as stated fails on the code: the `isPolling` guard sits before
the `await`, not after it, so a fetch launched by a tick and still in flight
at teardown is applied when it resolves.  Here one processing list starts a
poll, a tick launches a fetch, the effect is torn down (flag cleared, timer
cleared), and the in-flight response then resolves with the settled data:
`setLists` runs after teardown and the view's list state is mutated. -/
theorem stale_resolve_after_teardown :
    (tickStart (setupPoll 0 [freshList])).2 = some ["l1"] ∧
    (teardown (setupPoll 0 [freshList])).isPolling = false ∧
    (teardown (setupPoll 0 [freshList])).timerActive = false ∧
    (resolveFetch 5000 ["l1"] (some [settledList])
        (teardown (setupPoll 0 [freshList]))).lists = [settledList] ∧
    (teardown (setupPoll 0 [freshList])).lists = [freshList] ∧
    [settledList] ≠ [freshList] := by
  refine ⟨by decide, rfl, rfl, by decide, rfl, by decide⟩

/-- CLAIM C8.  For each mutation handler (populate, rename, delete), when the
awaited API call fails, the list collection and the submitted form data are
unchanged, exactly one destructive error toast carrying the error message is
shown, and exactly one API call was issued (no retry). -/
theorem mutation_failure_preserves_state (s : PageState) (e : String)
    (refetch : Except String (List ListRec)) :
    ((jsTrim s.searchUrl) ≠ "" →
      (handleGenerateList s (Except.error e) refetch).1.lists = s.lists ∧
      (handleGenerateList s (Except.error e) refetch).1.searchUrl = s.searchUrl ∧
      (handleGenerateList s (Except.error e) refetch).1.profileLimit = s.profileLimit ∧
      (handleGenerateList s (Except.error e) refetch).1.collectOnly = s.collectOnly ∧
      (handleGenerateList s (Except.error e) refetch).1.sendNote = s.sendNote ∧
      (handleGenerateList s (Except.error e) refetch).1.noteText = s.noteText ∧
      (handleGenerateList s (Except.error e) refetch).2.1 = [errToast e] ∧
      (handleGenerateList s (Except.error e) refetch).2.2.length = 1) ∧
    (∀ l, s.listToRename = some l → (jsTrim s.newListName) ≠ "" →
      (handleRename s (Except.error e) refetch).1.lists = s.lists ∧
      (handleRename s (Except.error e) refetch).1.listToRename = s.listToRename ∧
      (handleRename s (Except.error e) refetch).1.newListName = s.newListName ∧
      (handleRename s (Except.error e) refetch).2.1 = [errToast e] ∧
      (handleRename s (Except.error e) refetch).2.2.length = 1) ∧
    (∀ l, s.listToDelete = some l →
      (handleDelete s (Except.error e) refetch).1.lists = s.lists ∧
      (handleDelete s (Except.error e) refetch).1.listToDelete = s.listToDelete ∧
      (handleDelete s (Except.error e) refetch).2.1 = [errToast e] ∧
      (handleDelete s (Except.error e) refetch).2.2.length = 1) := by
  refine ⟨fun hne => ?_, fun l hl hne => ?_, fun l hl => ?_⟩
  · simp [handleGenerateList, hne]
  · simp [handleRename, hl, hne]
  · simp [handleDelete, hl]

/-- Witness for CLAIM C8: concrete page state with a pending populate form, a
rename target and a delete target; each handler, on a failed call, keeps the
lists and form data and shows one error toast. -/
theorem mutation_failure_preserves_state_witness :
    (handleGenerateList
        { lists := [settledList], isModalOpen := true, isLoading := true,
          searchUrl := "https://x/search?kw=eng", profileLimit := 50,
          collectOnly := true, sendNote := false, noteText := "",
          renameDialogOpen := true, listToRename := some settledList,
          newListName := "New Name", isRenaming := true,
          deleteDialogOpen := true, listToDelete := some settledList,
          isDeleting := true }
        (Except.error "rate limited") (Except.ok [])).1.lists =
      [settledList] ∧
    (handleRename
        { lists := [settledList], isModalOpen := true, isLoading := true,
          searchUrl := "https://x/search?kw=eng", profileLimit := 50,
          collectOnly := true, sendNote := false, noteText := "",
          renameDialogOpen := true, listToRename := some settledList,
          newListName := "New Name", isRenaming := true,
          deleteDialogOpen := true, listToDelete := some settledList,
          isDeleting := true }
        (Except.error "rate limited") (Except.ok [])).2.1 =
      [errToast "rate limited"] :=
  ⟨(mutation_failure_preserves_state _ "rate limited" (Except.ok [])).1
      (by decide) |>.1,
   ((mutation_failure_preserves_state _ "rate limited" (Except.ok [])).2.1
      settledList rfl (by decide)).2.2.2.1⟩

end LIScraper
